import Mathlib

/-!
Verification of the Finora repository's financial logic.

This file gives a shallow embedding, over `ℚ`, of the pure logic of the
repository and proves the specification's claims about it:

* `lib/financialHealth.ts` — the financial-health scoring function
  (`computeForMonth`, `calculateFinancialHealth` and their helpers);
* `app/depreciation/page.tsx` — the per-asset update performed by
  `runAnnualDepreciation`;
* `lib/smart-alerts.ts` — `computeSmartAlerts`;
* `app/api/ai/summary/route.ts` and `app/api/ai/followup/route.ts` — the
  control flow of the two AI endpoints around the daily rate limit.

JS numbers are modelled as rationals (the code performs only field
arithmetic, `Math.round`, `Math.sqrt`, `Math.max`/`min` on them), JS strings
as `String`, absent/optional values as `Option`.
-/

namespace Finora

/-! ### JS primitives -/

/-- JS `Math.round`: round half toward positive infinity. -/
def jsRound (q : ℚ) : ℤ := ⌊q + 1/2⌋

/-- JS string comparison (`<` on strings), code unit by code unit, on the
character lists of the two strings.  Lean `Char` values carry the Unicode
scalar value, which for the month labels used by the app ("YYYY-MM") agrees
with the UTF-16 code units JS compares. -/
def jsStrLtChars : List Char → List Char → Bool
  | [], [] => false
  | [], _ :: _ => true
  | _ :: _, [] => false
  | a :: as, b :: bs =>
    if a.toNat < b.toNat then true
    else if b.toNat < a.toNat then false
    else jsStrLtChars as bs

/-- `Math.sqrt` modelled on `ℚ`.  Exact whenever the argument is the square
of a rational — which holds at every concrete input the theorems below
evaluate it on (see `ratSqrt_mul_self`); computed from the numerator and
denominator via `Nat.sqrt`. -/
def ratSqrt (q : ℚ) : ℚ := (Nat.sqrt q.num.toNat : ℚ) / (Nat.sqrt q.den : ℚ)

/-! ### lib/financialHealth.ts — data model -/

/-- `MonthlyFinance` from lib/financialHealth.ts. -/
structure MonthlyFinance where
  month : String
  income : ℚ
  expenses : ℚ
  savings : Option ℚ
  discretionarySpending : Option ℚ
deriving DecidableEq

/-- `FinancialHealthBreakdown` from lib/financialHealth.ts. -/
structure FinancialHealthBreakdown where
  incomeVsExpenses : ℚ
  savingsRate : ℚ
  spendingConsistency : ℚ
  volatility : ℚ
  emergencyBuffer : ℚ

/-- The `signals` component of `FinancialHealthResult`. -/
structure HealthSignals where
  expenseRatio : ℚ
  savingsRate : ℚ
  estimatedSavings : ℚ
  bufferMonths : ℚ
  volatilityIndex : ℚ
  consistencyIndex : ℚ

/-- The `insight` component of `FinancialHealthResult`. -/
structure HealthInsight where
  headline : String
  summary : String
  strengths : List String
  improvements : List String

/-- `Omit<FinancialHealthResult, "deltaFromPreviousMonth">`, the return type
of `computeForMonth`. -/
structure FinancialHealthCore where
  score : ℚ
  breakdown : FinancialHealthBreakdown
  signals : HealthSignals
  insight : HealthInsight

/-- `FinancialHealthResult` from lib/financialHealth.ts.
`deltaFromPreviousMonth : number | null` becomes `Option ℚ`. -/
structure FinancialHealthResult where
  score : ℚ
  deltaFromPreviousMonth : Option ℚ
  breakdown : FinancialHealthBreakdown
  signals : HealthSignals
  insight : HealthInsight

/-- `FinancialHealthOptions` from lib/financialHealth.ts.  `lookbackMonths`
is a count of months, so it is embedded as `ℕ`. -/
structure FinancialHealthOptions where
  emergencyFundAmount : Option ℚ
  lookbackMonths : Option ℕ

/-- The `= {}` default for the `options` parameter of
`calculateFinancialHealth`. -/
def defaultOptions : FinancialHealthOptions := { emergencyFundAmount := none, lookbackMonths := none }

/-! ### lib/financialHealth.ts — helpers -/

/-- `clamp` from lib/financialHealth.ts: `Math.max(min, Math.min(max, n))`.
The source's default bounds (`min = 0`, `max = 100`) are written explicitly
at every call site. -/
def clamp (n lo hi : ℚ) : ℚ := max lo (min hi n)

/-- `scoreLowerIsBetter` from lib/financialHealth.ts.  The source's
`!isFinite(value)` guard is dead in this embedding: `ℚ` has no non-finite
values, and `safeDiv` (the only ratio producer) never divides by zero. -/
def scoreLowerIsBetter (value good bad : ℚ) : ℚ :=
  if value ≤ good then 100
  else if bad ≤ value then 0
  else clamp ((jsRound ((bad - value) / (bad - good) * 100) : ℤ) : ℚ) 0 100

/-- `scoreHigherIsBetter` from lib/financialHealth.ts (same remark about the
`!isFinite(value)` guard as for `scoreLowerIsBetter`). -/
def scoreHigherIsBetter (value bad good : ℚ) : ℚ :=
  if good ≤ value then 100
  else if value ≤ bad then 0
  else clamp ((jsRound ((value - bad) / (good - bad) * 100) : ℤ) : ℚ) 0 100

/-- `mean` from lib/financialHealth.ts. -/
def mean (nums : List ℚ) : ℚ :=
  if nums.length = 0 then 0 else nums.sum / (nums.length : ℚ)

/-- `stdDev` from lib/financialHealth.ts. -/
def stdDev (nums : List ℚ) : ℚ :=
  if nums.length < 2 then 0
  else ratSqrt (mean (nums.map fun x => (x - mean nums) ^ 2))

/-- `coeffVar` from lib/financialHealth.ts: `std / |mean|`, `0` when the
mean is zero. -/
def coeffVar (nums : List ℚ) : ℚ :=
  if mean nums = 0 then 0 else stdDev nums / |mean nums|

/-- `safeDiv` from lib/financialHealth.ts (the `isFinite` guards on the
arguments are dead on `ℚ`). -/
def safeDiv (a b : ℚ) : ℚ := if b = 0 then 0 else a / b

/-- The comparator `(a, b) => (a.month > b.month ? 1 : -1)` used by
`calculateFinancialHealth` and `computeForMonth` sorts ascending by month
label; an element stays before another exactly when the latter's month is
not smaller. -/
def monthLe (a b : MonthlyFinance) : Prop :=
  jsStrLtChars b.month.data a.month.data = false

instance : DecidableRel monthLe := fun a b =>
  inferInstanceAs (Decidable (_ = false))

instance : IsTotal MonthlyFinance monthLe := by
  constructor
  intro a b
  unfold monthLe
  suffices hasym : ∀ x y : List Char, jsStrLtChars x y = true → jsStrLtChars y x = false by
    cases h : jsStrLtChars b.month.data a.month.data with
    | false => exact Or.inl rfl
    | true => exact Or.inr (hasym _ _ h)
  intro x
  induction x with
  | nil =>
    intro y h
    cases y with
    | nil => simp [jsStrLtChars] at h
    | cons bv bs => simp [jsStrLtChars]
  | cons av as ih =>
    intro y h
    cases y with
    | nil => simp [jsStrLtChars] at h
    | cons bv bs =>
      simp only [jsStrLtChars] at h ⊢
      rcases Nat.lt_trichotomy av.toNat bv.toNat with hc | hc | hc
      · rw [if_neg (by omega), if_pos hc]
      · rw [if_neg (by omega), if_neg (by omega)]
        rw [if_neg (by omega), if_neg (by omega)] at h
        exact ih bs h
      · rw [if_neg (by omega), if_pos hc] at h
        exact absurd h (by simp)

instance : IsTrans MonthlyFinance monthLe := by
  constructor
  intro a b c h1 h2
  unfold monthLe at h1 h2 ⊢
  revert h1 h2
  generalize a.month.data = x
  generalize b.month.data = y
  generalize c.month.data = z
  intro h1 h2
  induction x generalizing y z with
  | nil =>
    cases z with
    | nil => rfl
    | cons cv cs => rfl
  | cons av as ih =>
    cases y with
    | nil => simp [jsStrLtChars] at h1
    | cons bv bs =>
      cases z with
      | nil => simp [jsStrLtChars] at h2
      | cons cv cs =>
        simp only [jsStrLtChars] at h1 h2 ⊢
        rcases Nat.lt_trichotomy bv.toNat av.toNat with hba | hba | hba
        · rw [if_pos hba] at h1
          exact absurd h1 (by simp)
        · rcases Nat.lt_trichotomy cv.toNat bv.toNat with hcb | hcb | hcb
          · rw [if_pos hcb] at h2
            exact absurd h2 (by simp)
          · rw [if_neg (by omega), if_neg (by omega)] at h1 h2 ⊢
            exact ih _ _ h1 h2
          · rw [if_neg (by omega), if_pos (by omega)]
        · rcases Nat.lt_trichotomy cv.toNat bv.toNat with hcb | hcb | hcb
          · rw [if_pos hcb] at h2
            exact absurd h2 (by simp)
          · rw [if_neg (by omega), if_pos (by omega)]
          · rw [if_neg (by omega), if_pos (by omega)]

/-! ### JS number rendering (used only inside insight strings) -/

/-- Rounding used by JS `Number.prototype.toFixed`: nearest, ties away from
zero.  Every value it is applied to below is nonnegative. -/
def jsToFixedRound (q : ℚ) : ℤ :=
  if 0 ≤ q then ⌊q + 1/2⌋ else -⌊-q + 1/2⌋

/-- Template-literal rendering `${n}` of a JS number; every value rendered
this way below is a whole number, for which JS prints the integer digits. -/
def numStr (q : ℚ) : String :=
  if q.den = 1 then toString q.num else toString q

/-- JS `n.toFixed(0)`. -/
def toFixed0 (q : ℚ) : String := toString (jsToFixedRound q)

/-- JS `n.toFixed(1)` for the nonnegative values it is applied to here. -/
def toFixed1 (q : ℚ) : String :=
  toString (jsToFixedRound (q * 10) / 10) ++ "." ++ toString (jsToFixedRound (q * 10) % 10)

/-! ### lib/financialHealth.ts — scoring -/

/-- `computeForMonth` from lib/financialHealth.ts: core scoring for a single
month, using the lookback history for the stability measures.
`current.income || 0` (and the like) are the identity on every number except
`NaN`/`±0`, which `ℚ` does not distinguish, so they are embedded as the
field itself; `Math.max(0, ·)` is `max 0 ·`; `slice(Math.max(0, len - n))`
is `List.drop (len - n)` (truncated subtraction). -/
def computeForMonth (current : MonthlyFinance) (history : List MonthlyFinance)
    (options : FinancialHealthOptions) : FinancialHealthCore :=
  let lookback := options.lookbackMonths.getD 6
  let income := max 0 current.income
  let expenses := max 0 current.expenses
  let derivedSavings := max 0 (income - expenses)
  let savings := max 0 (current.savings.getD derivedSavings)
  let expenseRatio := safeDiv expenses income
  let savingsRate := safeDiv savings income
  let incomeVsExpensesScore := scoreLowerIsBetter expenseRatio 0.7 1.0
  let savingsScore := scoreHigherIsBetter savingsRate 0.05 0.2
  let sorted := List.insertionSort monthLe history
  let recent := sorted.drop (sorted.length - lookback)
  let recentIncomes := recent.map fun m => max 0 m.income
  let recentExpenses := recent.map fun m => max 0 m.expenses
  let expenseCV := coeffVar recentExpenses
  let spendingConsistencyScore := scoreLowerIsBetter expenseCV 0.1 0.5
  let incomeCV := coeffVar recentIncomes
  let combinedVol := 0.5 * incomeCV + 0.5 * expenseCV
  let volatilityScore := scoreLowerIsBetter combinedVol 0.1 0.6
  let emergencyFund := max 0 (options.emergencyFundAmount.getD 0)
  let bufferMonths :=
    if 0 < expenses then emergencyFund / expenses
    else if 0 < emergencyFund then 6 else 0
  let emergencyBufferScore := scoreHigherIsBetter bufferMonths 0.5 3.0
  let breakdown : FinancialHealthBreakdown :=
    { incomeVsExpenses := incomeVsExpensesScore
      savingsRate := savingsScore
      spendingConsistency := spendingConsistencyScore
      volatility := volatilityScore
      emergencyBuffer := emergencyBufferScore }
  let scoreRaw :=
    breakdown.incomeVsExpenses * 0.30 +
    breakdown.savingsRate * 0.25 +
    breakdown.spendingConsistency * 0.20 +
    breakdown.volatility * 0.15 +
    breakdown.emergencyBuffer * 0.10
  let score := clamp ((jsRound scoreRaw : ℤ) : ℚ) 0 100
  let strengths :=
    (if 75 ≤ breakdown.incomeVsExpenses then ["Good income vs expenses balance"] else []) ++
    (if 75 ≤ breakdown.savingsRate then ["Strong savings rate"] else []) ++
    (if 75 ≤ breakdown.spendingConsistency then ["Consistent spending pattern"] else []) ++
    (if 75 ≤ breakdown.volatility then ["Stable financial flow"] else []) ++
    (if 75 ≤ breakdown.emergencyBuffer then ["Healthy emergency buffer"] else [])
  let discretionary := max 0 (current.discretionarySpending.getD 0)
  let improvements :=
    (if 75 ≤ breakdown.incomeVsExpenses then [] else ["Reduce expenses relative to income"]) ++
    (if 75 ≤ breakdown.savingsRate then [] else ["Boost savings rate (even +5% helps)"]) ++
    (if 75 ≤ breakdown.spendingConsistency then [] else ["Smooth out spending spikes month-to-month"]) ++
    (if 75 ≤ breakdown.volatility then [] else ["Lower volatility (avoid large swings where possible)"]) ++
    (if 75 ≤ breakdown.emergencyBuffer then [] else ["Build an emergency buffer (aim for 3 months)"]) ++
    (if 0 < discretionary ∧ 0 < income then
      (if 0.25 < discretionary / income then ["High discretionary spend is dragging your score"] else [])
     else [])
  let headline :=
    if 85 ≤ score then "Elite money discipline. Keep this up."
    else if 70 ≤ score then "Solid financial health — a few tweaks can push you higher."
    else if 50 ≤ score then "Fair, but you’ve got some leaks to fix."
    else "Your finances are under pressure — let’s stabilise first."
  let summaryParts :=
    ["Score " ++ numStr score ++ "/100."] ++
    (if 0 < income then
      ["You spent " ++ toFixed0 (expenseRatio * 100) ++ "% of your income and saved " ++
        toFixed0 (savingsRate * 100) ++ "%."]
     else ["Income for this month is low or missing, so the score leans conservative."]) ++
    (if 0 < options.emergencyFundAmount.getD 0 then
      ["Your emergency buffer is about " ++ toFixed1 bufferMonths ++ " months."]
     else [])
  { score := score
    breakdown := breakdown
    signals :=
      { expenseRatio := expenseRatio
        savingsRate := savingsRate
        estimatedSavings := savings
        bufferMonths := bufferMonths
        volatilityIndex := clamp ((jsRound (combinedVol * 100) : ℤ) : ℚ) 0 100 / 100
        consistencyIndex := clamp ((jsRound ((1 - expenseCV) * 100) : ℤ) : ℚ) 0 100 / 100 }
    insight :=
      { headline := headline
        summary := String.intercalate " " summaryParts
        strengths := strengths
        improvements := improvements } }

/-- `calculateFinancialHealth` from lib/financialHealth.ts (the public API).
A `null`/empty `months` argument yields `null`.  `sorted[sorted.length - 1]`
is the last element of the sorted list, `sorted.slice(0, sorted.length - 1)`
is `dropLast`, and `sorted[sorted.length - 2]` is the last element of that;
the `none` branch of the outer match is unreachable (the list is non-empty
there) and mirrors the bounds-checked indexing. -/
def calculateFinancialHealth (months : List MonthlyFinance)
    (options : FinancialHealthOptions) : Option FinancialHealthResult :=
  if months.length = 0 then none
  else
    let sorted := List.insertionSort monthLe months
    match sorted.getLast? with
    | none => none
    | some current =>
      let currentRes := computeForMonth current sorted options
      let delta : Option ℚ :=
        match sorted.dropLast.getLast? with
        | none => none
        | some prev =>
          let prevRes := computeForMonth prev sorted.dropLast options
          some (clamp (currentRes.score - prevRes.score) (-100) 100)
      some
        { score := currentRes.score
          deltaFromPreviousMonth := delta
          breakdown := currentRes.breakdown
          signals := currentRes.signals
          insight := currentRes.insight }

/-! ### app/depreciation/page.tsx — runAnnualDepreciation -/

/-- The fields of an `assets` row read by `runAnnualDepreciation`
(`Number(a.cost) || 0` etc. are the identity in this embedding, as for
`computeForMonth`). -/
structure AssetDep where
  cost : ℚ
  rate : ℚ
  accumulatedDepreciation : ℚ

/-- The values `runAnnualDepreciation` computes and writes back for one
asset: the depreciation line amount, and the updated
`accumulated_depreciation` and `nbv` columns. -/
structure AssetDepResult where
  applied : ℚ
  newAcc : ℚ
  newNbv : ℚ

/-- The per-asset body of the loop in `runAnnualDepreciation`
(app/depreciation/page.tsx): straight-line annual depreciation
`cost * rate`, floored at `0`, capped at the remaining book value, added to
the accumulated depreciation; the new NBV never goes below zero. -/
def depreciateAsset (a : AssetDep) : AssetDepResult :=
  let annual := max 0 (a.cost * a.rate)
  let remaining := max 0 (a.cost - a.accumulatedDepreciation)
  let applied := min annual remaining
  let newAcc := a.accumulatedDepreciation + applied
  { applied := applied
    newAcc := newAcc
    newNbv := max 0 (a.cost - newAcc) }

/-- One run of annual depreciation updates every fetched asset with the
per-asset step (the database writes and the best-effort `dep_lines` insert
carry exactly these values). -/
def runAnnualDepreciation (assets : List AssetDep) : List AssetDepResult :=
  assets.map depreciateAsset

/-! ### lib/smart-alerts.ts — computeSmartAlerts -/

/-- The year and 0-based month index a JS `Date` exposes through
`getFullYear()`/`getMonth()` — the only parts of a date the alerts code
reads. -/
structure DateYM where
  year : ℤ
  monthIdx : ℕ

/-- The transaction type union `"income" | "expense"`. -/
inductive TxType
  | income
  | expense
deriving DecidableEq

/-- `Tx` from lib/smart-alerts.ts.  `date` is already in parsed form (the
source converts a string date with `new Date`; only year and month are
consumed). -/
structure Tx where
  id : Option String
  amount : ℚ
  type : Option TxType
  category : Option String
  date : Option DateYM

/-- `SmartAlert` from lib/smart-alerts.ts.  `severity` keeps its union
value as a string. -/
structure SmartAlert where
  id : String
  title : String
  message : String
  severity : String
  createdAt : String
  emoji : Option String
  detail : Option String
deriving DecidableEq

/-- Stand-in for `Number.prototype.toLocaleString()` under the runtime's
fixed default locale.  The theorems below never depend on the exact digits
rendered, only on this being a function of the amount. -/
def fmtAmount (q : ℚ) : String := toString q

/-- `computeSmartAlerts` from lib/smart-alerts.ts.  `now` is the timestamp
`new Date().toISOString()` reads from the clock at the moment of the call;
it is made an explicit argument so that the dependence of the result on the
clock can be stated. -/
def computeSmartAlerts (now : String) (txs : List Tx)
    (selectedMonthDate : Option DateYM) (currency : String) : List SmartAlert :=
  if txs.length = 0 then []
  else
    let filtered :=
      match selectedMonthDate with
      | none => txs
      | some d =>
        txs.filter fun t =>
          match t.date with
          | none => true
          | some td => decide (td.year = d.year ∧ td.monthIdx = d.monthIdx)
    let totalExpense :=
      ((filtered.filter fun t => t.type.getD TxType.expense = TxType.expense).map
        fun t => t.amount).sum
    let totalIncome :=
      ((filtered.filter fun t => t.type = some TxType.income).map
        fun t => t.amount).sum
    [({ id := "summary"
        title := "Monthly summary"
        message := "Income: " ++ currency ++ fmtAmount totalIncome ++
          " • Expenses: " ++ currency ++ fmtAmount totalExpense
        severity := "info"
        createdAt := now
        emoji := some "📊"
        detail := some (if selectedMonthDate.isSome then "Summary for the selected month."
          else "Summary for your transactions.") } : SmartAlert)] ++
    (if totalIncome < totalExpense ∧ 0 < totalIncome then
      [({ id := "overspend"
          title := "Spending is higher than income"
          message := "You spent more than you earned this month."
          severity := "warning"
          createdAt := now
          emoji := some "⚠️"
          detail := some "Consider setting a budget or trimming non-essentials." } : SmartAlert)]
     else []) ++
    (if totalIncome = 0 ∧ 0 < totalExpense then
      [({ id := "no-income"
          title := "No income recorded"
          message := "You have expenses but no income logged for this period."
          severity := "warning"
          createdAt := now
          emoji := some "🧾"
          detail := some "If this is wrong, add income transactions." } : SmartAlert)]
     else [])

/-! ### app/api/ai/summary/route.ts and app/api/ai/followup/route.ts -/

/-- What one request to an AI route produces, as far as the rate-limit
claim is concerned: the HTTP status of the response and whether the
generative-AI API was invoked while serving it. -/
structure RouteOutcome where
  status : ℕ
  calledAI : Bool
deriving DecidableEq

/-- `DAILY_AI_LIMIT` from app/api/ai/summary/route.ts. -/
def DAILY_AI_LIMIT : ℕ := 5

/-- Control flow of `POST /api/ai/summary` up to the generative-AI call:
reject with 400 when the money fields do not parse, with 500 when no API
key is configured; then, when the Redis client is configured, increment the
client's per-day key and reject with 429 — without calling the AI — when
the incremented count exceeds `DAILY_AI_LIMIT`.  `newCount` is the value
the Redis `INCR` returned for this request (the client's request count
today, this request included).  Provider errors after a successful gate are
irrelevant to the claims and the success path is summarised as status 200
with the AI called. -/
def summaryPOST (validBody hasApiKey redisConfigured : Bool) (newCount : ℕ) : RouteOutcome :=
  if validBody = false then { status := 400, calledAI := false }
  else if hasApiKey = false then { status := 500, calledAI := false }
  else if redisConfigured = true ∧ DAILY_AI_LIMIT < newCount then
    { status := 429, calledAI := false }
  else { status := 200, calledAI := true }

/-- Control flow of `POST /api/ai/followup`: reject with 400 when the
question is missing and with 500 when no API key is configured; otherwise
call the generative-AI API.  The handler consults no key-value store;
`dailyCount` (the client's request count in the external store) is threaded
through only so the claim about a store-backed limit can be stated — the
outcome never reads it.  (The route's 429 arises only by mapping a quota
error returned by the AI provider itself, i.e. after calling it.) -/
def followupPOST (hasQuestion hasApiKey : Bool) (dailyCount : ℕ) : RouteOutcome :=
  if hasQuestion = false then { status := 400, calledAI := false }
  else if hasApiKey = false then { status := 500, calledAI := false }
  else { status := 200, calledAI := true }

/-! ### Accessors and concrete inputs used by the theorems -/

/-- Placeholder result used only to project fields out of an option that is
provably `some`. -/
def dummyResult : FinancialHealthResult :=
  { score := 0
    deltaFromPreviousMonth := none
    breakdown :=
      { incomeVsExpenses := 0, savingsRate := 0, spendingConsistency := 0,
        volatility := 0, emergencyBuffer := 0 }
    signals :=
      { expenseRatio := 0, savingsRate := 0, estimatedSavings := 0,
        bufferMonths := 0, volatilityIndex := 0, consistencyIndex := 0 }
    insight := { headline := "", summary := "", strengths := [], improvements := [] } }

/-- The score of an optional result (`0` for `null`, which
`calculateFinancialHealth` only returns on empty input). -/
def optScore (r : Option FinancialHealthResult) : ℚ :=
  match r with
  | none => 0
  | some x => x.score

/-- A month with income 100, expenses 50 (savings derived). -/
def sampleJan : MonthlyFinance :=
  { month := "2026-01", income := 100, expenses := 50, savings := none,
    discretionarySpending := none }

/-- A second month with income 80, expenses 60 (savings derived). -/
def sampleFeb : MonthlyFinance :=
  { month := "2026-02", income := 80, expenses := 60, savings := none,
    discretionarySpending := none }

/-- A no-income month: income 0, expenses 100. -/
def zeroIncomeMonth : MonthlyFinance :=
  { month := "2026-01", income := 0, expenses := 100, savings := none,
    discretionarySpending := none }

/-- `zeroIncomeMonth` with its income raised to 50, everything else fixed. -/
def raisedIncomeMonth : MonthlyFinance :=
  { month := "2026-01", income := 50, expenses := 100, savings := none,
    discretionarySpending := none }

/-- A month with an explicitly tracked savings amount of 20. -/
def explicitSavingsMonth : MonthlyFinance :=
  { month := "2026-01", income := 100, expenses := 70, savings := some 20,
    discretionarySpending := none }

/-- `explicitSavingsMonth` with its income raised to 200, everything else
(the explicit savings included) fixed. -/
def explicitSavingsRaised : MonthlyFinance :=
  { month := "2026-01", income := 200, expenses := 70, savings := some 20,
    discretionarySpending := none }

/-- A steady second month: income 100, expenses 50. -/
def steadyFeb : MonthlyFinance :=
  { month := "2026-02", income := 100, expenses := 50, savings := none,
    discretionarySpending := none }

/-- `steadyFeb` with its income raised to 1000, everything else fixed. -/
def spikeFeb : MonthlyFinance :=
  { month := "2026-02", income := 1000, expenses := 50, savings := none,
    discretionarySpending := none }

/-- A single expense transaction, for exercising `computeSmartAlerts`. -/
def oneExpenseTx : Tx :=
  { id := none, amount := 50, type := some TxType.expense, category := none, date := none }

/-- A `SmartAlert` with its `createdAt` field blanked, for stating which
parts of an alert do not depend on the clock. -/
def eraseCreatedAt (a : SmartAlert) : SmartAlert :=
  { a with createdAt := "" }

/-! ### Basic lemmas about the numeric helpers -/

theorem jsRound_mono {a b : ℚ} (h : a ≤ b) : jsRound a ≤ jsRound b :=
  Int.floor_le_floor (by linarith)

theorem clamp_mono {a b lo hi : ℚ} (h : a ≤ b) : clamp a lo hi ≤ clamp b lo hi :=
  max_le_max le_rfl (min_le_min le_rfl h)

theorem clamp_le_hi {n lo hi : ℚ} (h : lo ≤ hi) : clamp n lo hi ≤ hi :=
  max_le h (min_le_left _ _)

theorem lo_le_clamp {n lo hi : ℚ} : lo ≤ clamp n lo hi :=
  le_max_left _ _

theorem clamp_eq_self {n lo hi : ℚ} (h1 : lo ≤ n) (h2 : n ≤ hi) : clamp n lo hi = n := by
  unfold clamp
  rw [min_eq_right h2, max_eq_right h1]

theorem scoreLowerIsBetter_nonneg (value good bad : ℚ) :
    0 ≤ scoreLowerIsBetter value good bad := by
  unfold scoreLowerIsBetter
  split_ifs with h1 h2
  · norm_num
  · exact le_rfl
  · exact lo_le_clamp

theorem scoreLowerIsBetter_le_100 (value good bad : ℚ) :
    scoreLowerIsBetter value good bad ≤ 100 := by
  unfold scoreLowerIsBetter
  split_ifs with h1 h2
  · exact le_rfl
  · norm_num
  · exact clamp_le_hi (by norm_num)

theorem scoreLowerIsBetter_of_le {value good : ℚ} (bad : ℚ) (h : value ≤ good) :
    scoreLowerIsBetter value good bad = 100 := by
  unfold scoreLowerIsBetter
  rw [if_pos h]

theorem scoreLowerIsBetter_anti {good bad v v' : ℚ} (hgb : good < bad) (hv : v' ≤ v) :
    scoreLowerIsBetter v good bad ≤ scoreLowerIsBetter v' good bad := by
  unfold scoreLowerIsBetter
  by_cases h1 : v' ≤ good
  · rw [if_pos h1]
    split_ifs with h2 h3
    · exact le_rfl
    · norm_num
    · exact clamp_le_hi (by norm_num)
  · rw [if_neg h1, if_neg (by linarith)]
    by_cases h2 : bad ≤ v
    · rw [if_pos h2]
      split_ifs with h3
      · exact le_rfl
      · exact lo_le_clamp
    · rw [if_neg h2, if_neg (by linarith)]
      apply clamp_mono
      have : (bad - v) / (bad - good) ≤ (bad - v') / (bad - good) := by
        apply div_le_div_of_nonneg_right ?_ (by linarith) |>.trans_eq rfl
        linarith
      exact_mod_cast jsRound_mono (by nlinarith)

theorem scoreHigherIsBetter_nonneg (value bad good : ℚ) :
    0 ≤ scoreHigherIsBetter value bad good := by
  unfold scoreHigherIsBetter
  split_ifs with h1 h2
  · norm_num
  · exact le_rfl
  · exact lo_le_clamp

theorem scoreHigherIsBetter_le_100 (value bad good : ℚ) :
    scoreHigherIsBetter value bad good ≤ 100 := by
  unfold scoreHigherIsBetter
  split_ifs with h1 h2
  · exact le_rfl
  · norm_num
  · exact clamp_le_hi (by norm_num)

theorem scoreHigherIsBetter_of_le {value good : ℚ} (bad : ℚ) (h : good ≤ value) :
    scoreHigherIsBetter value bad good = 100 := by
  unfold scoreHigherIsBetter
  rw [if_pos h]

theorem scoreHigherIsBetter_mono {bad good v v' : ℚ} (hbg : bad < good) (hv : v ≤ v') :
    scoreHigherIsBetter v bad good ≤ scoreHigherIsBetter v' bad good := by
  unfold scoreHigherIsBetter
  by_cases h1 : good ≤ v'
  · rw [if_pos h1]
    split_ifs with h2 h3
    · exact le_rfl
    · norm_num
    · exact clamp_le_hi (by norm_num)
  · rw [if_neg h1, if_neg (by linarith)]
    by_cases h2 : v ≤ bad
    · rw [if_pos h2]
      split_ifs with h3
      · exact le_rfl
      · exact lo_le_clamp
    · rw [if_neg h2, if_neg (by linarith)]
      apply clamp_mono
      have hdiv : (v - bad) / (good - bad) ≤ (v' - bad) / (good - bad) :=
        div_le_div_of_nonneg_right ?_ (by linarith) |>.trans_eq rfl
      · exact_mod_cast jsRound_mono (mul_le_mul_of_nonneg_right hdiv (by norm_num))
      · linarith

theorem ratSqrt_mul_self {r : ℚ} (h : 0 ≤ r) : ratSqrt (r * r) = r := by
  have hnum : (0:ℤ) ≤ r.num := Rat.num_nonneg.mpr h
  obtain ⟨n, hn⟩ := Int.eq_ofNat_of_zero_le hnum
  unfold ratSqrt
  rw [Rat.mul_self_num, Rat.mul_self_den, hn]
  rw [show ((n : ℤ)) * (n : ℤ) = ((n * n : ℕ) : ℤ) from by push_cast; ring]
  rw [Int.toNat_natCast, Nat.sqrt_eq, Nat.sqrt_eq]
  have hr := Rat.num_div_den r
  rw [hn] at hr
  rw [show ((n : ℚ)) = (((n : ℤ) : ℚ)) from by push_cast; ring]
  exact hr

theorem coeffVar_nil : coeffVar [] = 0 := rfl

theorem coeffVar_singleton (c : ℚ) : coeffVar [c] = 0 := by
  unfold coeffVar
  split_ifs with h
  · rfl
  · rw [show stdDev [c] = 0 from rfl]
    exact zero_div _

theorem coeffVar_map_drop_singleton (k : ℕ) (f : MonthlyFinance → ℚ) (x : MonthlyFinance) :
    coeffVar ((List.drop k [x]).map f) = 0 := by
  cases k with
  | zero => exact coeffVar_singleton (f x)
  | succ n =>
    rw [show List.drop (n + 1) [x] = ([] : List MonthlyFinance) from by simp]
    exact coeffVar_nil

/-! ### Shape lemmas for computeForMonth -/

theorem computeForMonth_ive (c : MonthlyFinance) (h : List MonthlyFinance)
    (o : FinancialHealthOptions) :
    (computeForMonth c h o).breakdown.incomeVsExpenses =
      scoreLowerIsBetter (safeDiv (max 0 c.expenses) (max 0 c.income)) 0.7 1.0 := rfl

theorem computeForMonth_sav (c : MonthlyFinance) (h : List MonthlyFinance)
    (o : FinancialHealthOptions) :
    (computeForMonth c h o).breakdown.savingsRate =
      scoreHigherIsBetter
        (safeDiv (max 0 (c.savings.getD (max 0 (max 0 c.income - max 0 c.expenses))))
          (max 0 c.income))
        0.05 0.2 := rfl

theorem computeForMonth_cons (c : MonthlyFinance) (h : List MonthlyFinance)
    (o : FinancialHealthOptions) :
    (computeForMonth c h o).breakdown.spendingConsistency =
      scoreLowerIsBetter
        (coeffVar
          (((List.insertionSort monthLe h).drop
              ((List.insertionSort monthLe h).length - o.lookbackMonths.getD 6)).map
            fun m => max 0 m.expenses))
        0.1 0.5 := rfl

theorem computeForMonth_vol (c : MonthlyFinance) (h : List MonthlyFinance)
    (o : FinancialHealthOptions) :
    (computeForMonth c h o).breakdown.volatility =
      scoreLowerIsBetter
        (0.5 * coeffVar
          (((List.insertionSort monthLe h).drop
              ((List.insertionSort monthLe h).length - o.lookbackMonths.getD 6)).map
            fun m => max 0 m.income) +
         0.5 * coeffVar
          (((List.insertionSort monthLe h).drop
              ((List.insertionSort monthLe h).length - o.lookbackMonths.getD 6)).map
            fun m => max 0 m.expenses))
        0.1 0.6 := rfl

theorem computeForMonth_eb (c : MonthlyFinance) (h : List MonthlyFinance)
    (o : FinancialHealthOptions) :
    (computeForMonth c h o).breakdown.emergencyBuffer =
      scoreHigherIsBetter
        (if 0 < max 0 c.expenses then max 0 (o.emergencyFundAmount.getD 0) / max 0 c.expenses
         else if 0 < max 0 (o.emergencyFundAmount.getD 0) then 6 else 0)
        0.5 3.0 := rfl

theorem computeForMonth_score_def (c : MonthlyFinance) (h : List MonthlyFinance)
    (o : FinancialHealthOptions) :
    (computeForMonth c h o).score =
      clamp ((jsRound ((computeForMonth c h o).breakdown.incomeVsExpenses * 0.30 +
        (computeForMonth c h o).breakdown.savingsRate * 0.25 +
        (computeForMonth c h o).breakdown.spendingConsistency * 0.20 +
        (computeForMonth c h o).breakdown.volatility * 0.15 +
        (computeForMonth c h o).breakdown.emergencyBuffer * 0.10) : ℤ) : ℚ) 0 100 := rfl

theorem computeForMonth_expenseRatio (c : MonthlyFinance) (h : List MonthlyFinance)
    (o : FinancialHealthOptions) :
    (computeForMonth c h o).signals.expenseRatio =
      safeDiv (max 0 c.expenses) (max 0 c.income) := rfl

theorem computeForMonth_savingsRate_signal (c : MonthlyFinance) (h : List MonthlyFinance)
    (o : FinancialHealthOptions) :
    (computeForMonth c h o).signals.savingsRate =
      safeDiv (max 0 (c.savings.getD (max 0 (max 0 c.income - max 0 c.expenses))))
        (max 0 c.income) := rfl

theorem computeForMonth_score_nonneg (c : MonthlyFinance) (h : List MonthlyFinance)
    (o : FinancialHealthOptions) : 0 ≤ (computeForMonth c h o).score := by
  rw [computeForMonth_score_def]
  exact lo_le_clamp

theorem computeForMonth_score_le_100 (c : MonthlyFinance) (h : List MonthlyFinance)
    (o : FinancialHealthOptions) : (computeForMonth c h o).score ≤ 100 := by
  rw [computeForMonth_score_def]
  exact clamp_le_hi (by norm_num)

/-! ### Shape lemmas for calculateFinancialHealth -/

theorem calculateFinancialHealth_single (x : MonthlyFinance) (o : FinancialHealthOptions) :
    calculateFinancialHealth [x] o =
      some
        { score := (computeForMonth x [x] o).score
          deltaFromPreviousMonth := none
          breakdown := (computeForMonth x [x] o).breakdown
          signals := (computeForMonth x [x] o).signals
          insight := (computeForMonth x [x] o).insight } := rfl

theorem calculateFinancialHealth_some {months : List MonthlyFinance}
    {o : FinancialHealthOptions} {r : FinancialHealthResult}
    (hr : calculateFinancialHealth months o = some r) :
    ∃ c, (List.insertionSort monthLe months).getLast? = some c ∧
      r.score = (computeForMonth c (List.insertionSort monthLe months) o).score ∧
      r.breakdown = (computeForMonth c (List.insertionSort monthLe months) o).breakdown ∧
      r.signals = (computeForMonth c (List.insertionSort monthLe months) o).signals ∧
      r.deltaFromPreviousMonth =
        (match (List.insertionSort monthLe months).dropLast.getLast? with
         | none => none
         | some prev =>
            some (clamp
              ((computeForMonth c (List.insertionSort monthLe months) o).score -
                (computeForMonth prev (List.insertionSort monthLe months).dropLast o).score)
              (-100) 100)) := by
  unfold calculateFinancialHealth at hr
  by_cases h0 : months.length = 0
  · rw [if_pos h0] at hr
    exact absurd hr (by simp)
  · rw [if_neg h0] at hr
    dsimp only at hr
    cases hgl : (List.insertionSort monthLe months).getLast? with
    | none =>
      rw [hgl] at hr
      exact absurd hr (by simp)
    | some c =>
      rw [hgl] at hr
      have hinj := Option.some.inj hr
      subst hinj
      exact ⟨c, rfl, rfl, rfl, rfl, rfl⟩

theorem calculateFinancialHealth_isSome (months : List MonthlyFinance)
    (o : FinancialHealthOptions) (hm : months ≠ []) :
    (calculateFinancialHealth months o).isSome := by
  unfold calculateFinancialHealth
  have h0 : ¬ months.length = 0 := fun h => hm (List.length_eq_zero.mp h)
  rw [if_neg h0]
  dsimp only
  cases hgl : (List.insertionSort monthLe months).getLast? with
  | none =>
    have : List.insertionSort monthLe months = [] := List.getLast?_eq_none_iff.mp hgl
    have := congrArg List.length this
    rw [List.length_insertionSort] at this
    exact absurd this (by simpa using h0)
  | some c => simp

theorem dropLast_eq_nil_iff_len {l : List MonthlyFinance} :
    l.dropLast = [] ↔ l.length ≤ 1 := by
  constructor
  · intro h
    have := congrArg List.length h
    rw [List.length_dropLast] at this
    simp at this
    omega
  · intro h
    have h2 : l.dropLast.length = 0 := by rw [List.length_dropLast]; omega
    exact List.length_eq_zero.mp h2

/-! ### Single-month specializations -/

theorem optScore_single (x : MonthlyFinance) (o : FinancialHealthOptions) :
    optScore (calculateFinancialHealth [x] o) = (computeForMonth x [x] o).score := rfl

theorem computeForMonth_cons_single (x : MonthlyFinance) (o : FinancialHealthOptions) :
    (computeForMonth x [x] o).breakdown.spendingConsistency = 100 := by
  rw [computeForMonth_cons, show List.insertionSort monthLe [x] = [x] from rfl,
    coeffVar_map_drop_singleton]
  norm_num [scoreLowerIsBetter]

theorem computeForMonth_vol_single (x : MonthlyFinance) (o : FinancialHealthOptions) :
    (computeForMonth x [x] o).breakdown.volatility = 100 := by
  rw [computeForMonth_vol, show List.insertionSort monthLe [x] = [x] from rfl,
    coeffVar_map_drop_singleton, coeffVar_map_drop_singleton]
  norm_num [scoreLowerIsBetter]

theorem computeForMonth_score_single (x : MonthlyFinance) (o : FinancialHealthOptions) :
    (computeForMonth x [x] o).score =
      clamp ((jsRound ((computeForMonth x [x] o).breakdown.incomeVsExpenses * 0.30 +
        (computeForMonth x [x] o).breakdown.savingsRate * 0.25 + 100 * 0.20 + 100 * 0.15 +
        (computeForMonth x [x] o).breakdown.emergencyBuffer * 0.10) : ℤ) : ℚ) 0 100 := by
  rw [computeForMonth_score_def, computeForMonth_cons_single, computeForMonth_vol_single]

/-- Monotonicity of the derived savings rate in the income, for positive
incomes and fixed expenses (the shape is the one produced by
`computeForMonth_sav` with an absent explicit savings field). -/
theorem derived_savings_mono {e i j : ℚ} (h0 : 0 < i) (hij : i ≤ j) :
    safeDiv (max 0 (max 0 (i - max 0 e))) i ≤ safeDiv (max 0 (max 0 (j - max 0 e))) j := by
  have h0j : 0 < j := lt_of_lt_of_le h0 hij
  rw [safeDiv, safeDiv, if_neg h0.ne', if_neg h0j.ne']
  rw [max_eq_right (le_max_left 0 (i - max 0 e)), max_eq_right (le_max_left 0 (j - max 0 e))]
  have hE : 0 ≤ max 0 e := le_max_left 0 e
  by_cases hEi : max 0 e ≤ i
  · rw [max_eq_right (by linarith), max_eq_right (by linarith : (0:ℚ) ≤ j - max 0 e)]
    rw [div_le_div_iff₀ h0 h0j]
    nlinarith
  · rw [max_eq_left (by linarith), zero_div]
    positivity

/-! ### Claims about calculateFinancialHealth -/

/-- C10: `calculateFinancialHealth` returns `null` exactly when the input
month list is null or empty; every non-empty list of monthly aggregates
(with any options) produces a non-null result. -/
theorem calculate_health_none_iff_empty (months : List MonthlyFinance)
    (o : FinancialHealthOptions) :
    calculateFinancialHealth months o = none ↔ months = [] := by
  constructor
  · intro h
    by_contra hne
    have hs := calculateFinancialHealth_isSome months o hne
    rw [h] at hs
    simp at hs
  · intro h
    subst h
    rfl

/-- C4: whenever the expense-ratio signal returned by the scoring function
is at most 0.70, the incomeVsExpenses sub-score of the breakdown is 100. -/
theorem expense_ratio_low_full_subscore (months : List MonthlyFinance)
    (o : FinancialHealthOptions) (r : FinancialHealthResult)
    (hr : calculateFinancialHealth months o = some r)
    (h : r.signals.expenseRatio ≤ 0.7) :
    r.breakdown.incomeVsExpenses = 100 := by
  obtain ⟨c, -, -, hb, hsig, -⟩ := calculateFinancialHealth_some hr
  rw [hsig, computeForMonth_expenseRatio] at h
  rw [hb, computeForMonth_ive]
  exact scoreLowerIsBetter_of_le _ h

theorem expense_ratio_low_full_subscore_witness :
    ((calculateFinancialHealth [sampleJan] defaultOptions).getD dummyResult).signals.expenseRatio
        ≤ 0.7 ∧
    ((calculateFinancialHealth [sampleJan] defaultOptions).getD
        dummyResult).breakdown.incomeVsExpenses = 100 := by
  have h : ((calculateFinancialHealth [sampleJan] defaultOptions).getD
      dummyResult).signals.expenseRatio ≤ 0.7 := by
    rw [show ((calculateFinancialHealth [sampleJan] defaultOptions).getD
        dummyResult).signals.expenseRatio =
        safeDiv (max 0 sampleJan.expenses) (max 0 sampleJan.income) from rfl]
    norm_num [sampleJan, safeDiv]
  exact ⟨h, expense_ratio_low_full_subscore [sampleJan] defaultOptions _ rfl h⟩

/-- C5: whenever the savings-rate signal returned by the scoring function is
at least 0.20, the savingsRate sub-score of the breakdown is 100. -/
theorem savings_rate_high_full_subscore (months : List MonthlyFinance)
    (o : FinancialHealthOptions) (r : FinancialHealthResult)
    (hr : calculateFinancialHealth months o = some r)
    (h : 0.2 ≤ r.signals.savingsRate) :
    r.breakdown.savingsRate = 100 := by
  obtain ⟨c, -, -, hb, hsig, -⟩ := calculateFinancialHealth_some hr
  rw [hsig, computeForMonth_savingsRate_signal] at h
  rw [hb, computeForMonth_sav]
  exact scoreHigherIsBetter_of_le _ h

theorem savings_rate_high_full_subscore_witness :
    0.2 ≤ ((calculateFinancialHealth [sampleJan] defaultOptions).getD
        dummyResult).signals.savingsRate ∧
    ((calculateFinancialHealth [sampleJan] defaultOptions).getD
        dummyResult).breakdown.savingsRate = 100 := by
  have h : (0.2 : ℚ) ≤ ((calculateFinancialHealth [sampleJan] defaultOptions).getD
      dummyResult).signals.savingsRate := by
    rw [show ((calculateFinancialHealth [sampleJan] defaultOptions).getD
        dummyResult).signals.savingsRate =
        safeDiv (max 0 (sampleJan.savings.getD
          (max 0 (max 0 sampleJan.income - max 0 sampleJan.expenses))))
          (max 0 sampleJan.income) from rfl]
    norm_num [sampleJan, safeDiv]
  exact ⟨h, savings_rate_high_full_subscore [sampleJan] defaultOptions _ rfl h⟩

/-- C2: for every non-empty input the returned score is the weighted sum of
the five sub-scores (30% income-vs-expenses, 25% savings rate, 20% spending
consistency, 15% volatility, 10% emergency buffer), rounded to the nearest
integer and clamped to [0, 100]; in particular it lies in [0, 100]. -/
theorem score_weighted_sum_clamped (months : List MonthlyFinance)
    (o : FinancialHealthOptions) (r : FinancialHealthResult)
    (hr : calculateFinancialHealth months o = some r) :
    r.score =
      clamp ((jsRound (r.breakdown.incomeVsExpenses * 0.30 + r.breakdown.savingsRate * 0.25 +
        r.breakdown.spendingConsistency * 0.20 + r.breakdown.volatility * 0.15 +
        r.breakdown.emergencyBuffer * 0.10) : ℤ) : ℚ) 0 100 ∧
    0 ≤ r.score ∧ r.score ≤ 100 := by
  obtain ⟨c, -, hs, hb, -, -⟩ := calculateFinancialHealth_some hr
  refine ⟨?_, ?_, ?_⟩
  · rw [hs, hb]
    exact computeForMonth_score_def c _ o
  · rw [hs]
    exact computeForMonth_score_nonneg c _ o
  · rw [hs]
    exact computeForMonth_score_le_100 c _ o

theorem score_weighted_sum_clamped_witness :
    ((calculateFinancialHealth [sampleJan] defaultOptions).getD dummyResult).score =
      clamp ((jsRound
        (((calculateFinancialHealth [sampleJan] defaultOptions).getD
            dummyResult).breakdown.incomeVsExpenses * 0.30 +
          ((calculateFinancialHealth [sampleJan] defaultOptions).getD
            dummyResult).breakdown.savingsRate * 0.25 +
          ((calculateFinancialHealth [sampleJan] defaultOptions).getD
            dummyResult).breakdown.spendingConsistency * 0.20 +
          ((calculateFinancialHealth [sampleJan] defaultOptions).getD
            dummyResult).breakdown.volatility * 0.15 +
          ((calculateFinancialHealth [sampleJan] defaultOptions).getD
            dummyResult).breakdown.emergencyBuffer * 0.10) : ℤ) : ℚ) 0 100 ∧
    0 ≤ ((calculateFinancialHealth [sampleJan] defaultOptions).getD dummyResult).score ∧
    ((calculateFinancialHealth [sampleJan] defaultOptions).getD dummyResult).score ≤ 100 :=
  score_weighted_sum_clamped [sampleJan] defaultOptions _ rfl

/-- C6: the delta is `null` exactly for a single-month input, and with at
least two months it equals the score of the full sorted window minus the
score obtained by re-running `calculateFinancialHealth` on that window with
its last month removed. -/
theorem delta_previous_month_spec (months : List MonthlyFinance)
    (o : FinancialHealthOptions) (r : FinancialHealthResult)
    (hr : calculateFinancialHealth months o = some r) :
    (r.deltaFromPreviousMonth = none ↔ months.length = 1) ∧
    (∀ r', 2 ≤ months.length →
      calculateFinancialHealth (List.insertionSort monthLe months).dropLast o = some r' →
      r.deltaFromPreviousMonth = some (r.score - r'.score)) := by
  obtain ⟨c, hgl, hs, -, -, hd⟩ := calculateFinancialHealth_some hr
  have hlen0 : months.length ≠ 0 := by
    intro h0
    rw [List.length_eq_zero.mp h0] at hr
    exact absurd hr (by simp [show calculateFinancialHealth [] o = none from rfl])
  have hslen : (List.insertionSort monthLe months).length = months.length :=
    List.length_insertionSort _ _
  constructor
  · cases hgl2 : (List.insertionSort monthLe months).dropLast.getLast? with
    | none =>
      rw [hgl2] at hd
      have hd' : r.deltaFromPreviousMonth = none := hd
      have hnil : (List.insertionSort monthLe months).dropLast = [] :=
        List.getLast?_eq_none_iff.mp hgl2
      have hle1 : months.length ≤ 1 := by
        have := dropLast_eq_nil_iff_len.mp hnil
        omega
      constructor
      · intro _
        omega
      · intro _
        exact hd'
    | some p =>
      rw [hgl2] at hd
      have hd' : r.deltaFromPreviousMonth =
          some (clamp ((computeForMonth c (List.insertionSort monthLe months) o).score -
            (computeForMonth p (List.insertionSort monthLe months).dropLast o).score)
            (-100) 100) := hd
      have hne : (List.insertionSort monthLe months).dropLast ≠ [] := by
        intro hnil
        rw [hnil] at hgl2
        simp at hgl2
      have h2 : 2 ≤ months.length := by
        have hgt := (not_congr dropLast_eq_nil_iff_len).mp hne
        omega
      constructor
      · intro h
        rw [hd'] at h
        simp at h
      · intro h1
        omega
  · intro r' h2 hr'
    have hsorted : List.Sorted monthLe (List.insertionSort monthLe months) :=
      List.sorted_insertionSort monthLe months
    have hdlsorted : List.Sorted monthLe (List.insertionSort monthLe months).dropLast :=
      hsorted.sublist (List.dropLast_sublist _)
    have hsort_eq :
        List.insertionSort monthLe (List.insertionSort monthLe months).dropLast =
          (List.insertionSort monthLe months).dropLast := hdlsorted.insertionSort_eq
    obtain ⟨p, hgl', hs', -, -, -⟩ := calculateFinancialHealth_some hr'
    rw [hsort_eq] at hgl' hs'
    rw [hgl'] at hd
    have hd' : r.deltaFromPreviousMonth =
        some (clamp ((computeForMonth c (List.insertionSort monthLe months) o).score -
          (computeForMonth p (List.insertionSort monthLe months).dropLast o).score)
          (-100) 100) := hd
    rw [hd', hs, hs']
    congr 1
    apply clamp_eq_self
    · have ha := computeForMonth_score_nonneg c (List.insertionSort monthLe months) o
      have hb := computeForMonth_score_le_100 p (List.insertionSort monthLe months).dropLast o
      linarith
    · have ha := computeForMonth_score_le_100 c (List.insertionSort monthLe months) o
      have hb := computeForMonth_score_nonneg p (List.insertionSort monthLe months).dropLast o
      linarith

theorem delta_previous_month_spec_witness :
    ((calculateFinancialHealth [sampleJan, sampleFeb] defaultOptions).getD
        dummyResult).deltaFromPreviousMonth =
      some (((calculateFinancialHealth [sampleJan, sampleFeb] defaultOptions).getD
          dummyResult).score -
        ((calculateFinancialHealth
            (List.insertionSort monthLe [sampleJan, sampleFeb]).dropLast defaultOptions).getD
          dummyResult).score) :=
  (delta_previous_month_spec [sampleJan, sampleFeb] defaultOptions _ rfl).2 _
    (by norm_num) rfl

/-! ### Concrete score evaluations for the monotonicity counterexample -/

theorem eval_zero_income_score :
    (computeForMonth zeroIncomeMonth [zeroIncomeMonth] defaultOptions).score = 65 := by
  rw [computeForMonth_score_single]
  rw [show (computeForMonth zeroIncomeMonth [zeroIncomeMonth]
      defaultOptions).breakdown.incomeVsExpenses = 100 from by
    rw [computeForMonth_ive]; norm_num [zeroIncomeMonth, safeDiv, scoreLowerIsBetter]]
  rw [show (computeForMonth zeroIncomeMonth [zeroIncomeMonth]
      defaultOptions).breakdown.savingsRate = 0 from by
    rw [computeForMonth_sav]; norm_num [zeroIncomeMonth, safeDiv, scoreHigherIsBetter]]
  rw [show (computeForMonth zeroIncomeMonth [zeroIncomeMonth]
      defaultOptions).breakdown.emergencyBuffer = 0 from by
    rw [computeForMonth_eb]; norm_num [zeroIncomeMonth, defaultOptions, scoreHigherIsBetter]]
  norm_num [clamp, jsRound]

theorem eval_raised_income_score :
    (computeForMonth raisedIncomeMonth [raisedIncomeMonth] defaultOptions).score = 35 := by
  rw [computeForMonth_score_single]
  rw [show (computeForMonth raisedIncomeMonth [raisedIncomeMonth]
      defaultOptions).breakdown.incomeVsExpenses = 0 from by
    rw [computeForMonth_ive]; norm_num [raisedIncomeMonth, safeDiv, scoreLowerIsBetter]]
  rw [show (computeForMonth raisedIncomeMonth [raisedIncomeMonth]
      defaultOptions).breakdown.savingsRate = 0 from by
    rw [computeForMonth_sav]; norm_num [raisedIncomeMonth, safeDiv, scoreHigherIsBetter]]
  rw [show (computeForMonth raisedIncomeMonth [raisedIncomeMonth]
      defaultOptions).breakdown.emergencyBuffer = 0 from by
    rw [computeForMonth_eb]; norm_num [raisedIncomeMonth, defaultOptions, scoreHigherIsBetter]]
  norm_num [clamp, jsRound]

theorem eval_explicit_savings_score :
    (computeForMonth explicitSavingsMonth [explicitSavingsMonth] defaultOptions).score = 90 := by
  rw [computeForMonth_score_single]
  rw [show (computeForMonth explicitSavingsMonth [explicitSavingsMonth]
      defaultOptions).breakdown.incomeVsExpenses = 100 from by
    rw [computeForMonth_ive]; norm_num [explicitSavingsMonth, safeDiv, scoreLowerIsBetter]]
  rw [show (computeForMonth explicitSavingsMonth [explicitSavingsMonth]
      defaultOptions).breakdown.savingsRate = 100 from by
    rw [computeForMonth_sav]; norm_num [explicitSavingsMonth, safeDiv, scoreHigherIsBetter]]
  rw [show (computeForMonth explicitSavingsMonth [explicitSavingsMonth]
      defaultOptions).breakdown.emergencyBuffer = 0 from by
    rw [computeForMonth_eb]; norm_num [explicitSavingsMonth, defaultOptions, scoreHigherIsBetter]]
  norm_num [clamp, jsRound]

theorem eval_explicit_savings_raised_score :
    (computeForMonth explicitSavingsRaised [explicitSavingsRaised] defaultOptions).score = 73 := by
  rw [computeForMonth_score_single]
  rw [show (computeForMonth explicitSavingsRaised [explicitSavingsRaised]
      defaultOptions).breakdown.incomeVsExpenses = 100 from by
    rw [computeForMonth_ive]; norm_num [explicitSavingsRaised, safeDiv, scoreLowerIsBetter]]
  rw [show (computeForMonth explicitSavingsRaised [explicitSavingsRaised]
      defaultOptions).breakdown.savingsRate = 33 from by
    rw [computeForMonth_sav]
    norm_num [explicitSavingsRaised, safeDiv, scoreHigherIsBetter, clamp, jsRound]]
  rw [show (computeForMonth explicitSavingsRaised [explicitSavingsRaised]
      defaultOptions).breakdown.emergencyBuffer = 0 from by
    rw [computeForMonth_eb]; norm_num [explicitSavingsRaised, defaultOptions, scoreHigherIsBetter]]
  norm_num [clamp, jsRound]

theorem sort_steady_pair :
    List.insertionSort monthLe [sampleJan, steadyFeb] = [sampleJan, steadyFeb] := by decide

theorem sort_spike_pair :
    List.insertionSort monthLe [sampleJan, spikeFeb] = [sampleJan, spikeFeb] := by decide

theorem eval_steady_pair_score :
    (computeForMonth steadyFeb [sampleJan, steadyFeb] defaultOptions).score = 90 := by
  rw [computeForMonth_score_def]
  rw [show (computeForMonth steadyFeb [sampleJan, steadyFeb]
      defaultOptions).breakdown.incomeVsExpenses = 100 from by
    rw [computeForMonth_ive]; norm_num [steadyFeb, safeDiv, scoreLowerIsBetter]]
  rw [show (computeForMonth steadyFeb [sampleJan, steadyFeb]
      defaultOptions).breakdown.savingsRate = 100 from by
    rw [computeForMonth_sav]; norm_num [steadyFeb, safeDiv, scoreHigherIsBetter]]
  rw [show (computeForMonth steadyFeb [sampleJan, steadyFeb]
      defaultOptions).breakdown.spendingConsistency = 100 from by
    rw [computeForMonth_cons, sort_steady_pair]
    norm_num [sampleJan, steadyFeb, defaultOptions, coeffVar, mean, stdDev, ratSqrt,
      scoreLowerIsBetter]]
  rw [show (computeForMonth steadyFeb [sampleJan, steadyFeb]
      defaultOptions).breakdown.volatility = 100 from by
    rw [computeForMonth_vol, sort_steady_pair]
    norm_num [sampleJan, steadyFeb, defaultOptions, coeffVar, mean, stdDev, ratSqrt,
      scoreLowerIsBetter]]
  rw [show (computeForMonth steadyFeb [sampleJan, steadyFeb]
      defaultOptions).breakdown.emergencyBuffer = 0 from by
    rw [computeForMonth_eb]; norm_num [steadyFeb, defaultOptions, scoreHigherIsBetter]]
  norm_num [clamp, jsRound]

theorem eval_spike_pair_score :
    (computeForMonth spikeFeb [sampleJan, spikeFeb] defaultOptions).score = 81 := by
  rw [computeForMonth_score_def]
  rw [show (computeForMonth spikeFeb [sampleJan, spikeFeb]
      defaultOptions).breakdown.incomeVsExpenses = 100 from by
    rw [computeForMonth_ive]; norm_num [spikeFeb, safeDiv, scoreLowerIsBetter]]
  rw [show (computeForMonth spikeFeb [sampleJan, spikeFeb]
      defaultOptions).breakdown.savingsRate = 100 from by
    rw [computeForMonth_sav]; norm_num [spikeFeb, safeDiv, scoreHigherIsBetter]]
  rw [show (computeForMonth spikeFeb [sampleJan, spikeFeb]
      defaultOptions).breakdown.spendingConsistency = 100 from by
    rw [computeForMonth_cons, sort_spike_pair]
    norm_num [sampleJan, spikeFeb, defaultOptions, coeffVar, mean, stdDev, ratSqrt,
      scoreLowerIsBetter]]
  rw [show (computeForMonth spikeFeb [sampleJan, spikeFeb]
      defaultOptions).breakdown.volatility = 38 from by
    rw [computeForMonth_vol, sort_spike_pair]
    norm_num [sampleJan, spikeFeb, defaultOptions, coeffVar, mean, stdDev, ratSqrt,
      scoreLowerIsBetter, clamp, jsRound, show ((202500:ℤ)).toNat = 202500 from rfl]]
  rw [show (computeForMonth spikeFeb [sampleJan, spikeFeb]
      defaultOptions).breakdown.emergencyBuffer = 0 from by
    rw [computeForMonth_eb]; norm_num [spikeFeb, defaultOptions, scoreHigherIsBetter]]
  norm_num [clamp, jsRound]

theorem optScore_steady_pair :
    optScore (calculateFinancialHealth [sampleJan, steadyFeb] defaultOptions) =
      (computeForMonth steadyFeb [sampleJan, steadyFeb] defaultOptions).score := rfl

theorem optScore_spike_pair :
    optScore (calculateFinancialHealth [sampleJan, spikeFeb] defaultOptions) =
      (computeForMonth spikeFeb [sampleJan, spikeFeb] defaultOptions).score := rfl

/-- C1 (counterexample): increasing income with expenses fixed can strictly
decrease the score.  Three refuting instances: raising a zero income to 50
(single month, expenses 100) drops the score from 65 to 35; raising income
from 100 to 200 with an explicitly tracked savings amount (single month)
drops it from 90 to 73; and raising only the last month's income from 100
to 1000 in a two-month window (all incomes positive, expenses fixed) drops
it from 90 to 81 through the income-volatility sub-score. -/
theorem income_monotonicity_counterexample :
    (optScore (calculateFinancialHealth [raisedIncomeMonth] defaultOptions) <
      optScore (calculateFinancialHealth [zeroIncomeMonth] defaultOptions)) ∧
    (optScore (calculateFinancialHealth [explicitSavingsRaised] defaultOptions) <
      optScore (calculateFinancialHealth [explicitSavingsMonth] defaultOptions)) ∧
    (optScore (calculateFinancialHealth [sampleJan, spikeFeb] defaultOptions) <
      optScore (calculateFinancialHealth [sampleJan, steadyFeb] defaultOptions)) := by
  refine ⟨?_, ?_, ?_⟩
  · rw [optScore_single, optScore_single, eval_raised_income_score, eval_zero_income_score]
    norm_num
  · rw [optScore_single, optScore_single, eval_explicit_savings_raised_score,
      eval_explicit_savings_score]
    norm_num
  · rw [optScore_spike_pair, optScore_steady_pair, eval_spike_pair_score,
      eval_steady_pair_score]
    norm_num

/-- C1 (amended): for a single-month input whose savings field is absent
(derived savings), raising a positive income while holding the expenses,
the other fields and the options fixed never decreases the returned
score. -/
theorem single_month_income_monotonicity (m : String) (d : Option ℚ) (e i j : ℚ)
    (o : FinancialHealthOptions) (h0 : 0 < i) (hij : i ≤ j) :
    optScore (calculateFinancialHealth
      [{ month := m, income := i, expenses := e, savings := none,
         discretionarySpending := d }] o) ≤
    optScore (calculateFinancialHealth
      [{ month := m, income := j, expenses := e, savings := none,
         discretionarySpending := d }] o) := by
  have h0j : 0 < j := lt_of_lt_of_le h0 hij
  rw [optScore_single, optScore_single,
    computeForMonth_score_single, computeForMonth_score_single,
    computeForMonth_ive, computeForMonth_ive,
    computeForMonth_sav, computeForMonth_sav,
    computeForMonth_eb, computeForMonth_eb]
  dsimp only [Option.getD_none]
  simp only [max_eq_right h0.le, max_eq_right h0j.le]
  apply clamp_mono
  refine Int.cast_le.mpr (jsRound_mono ?_)
  have hivs :
      scoreLowerIsBetter (safeDiv (max 0 e) i) 0.7 1.0 ≤
        scoreLowerIsBetter (safeDiv (max 0 e) j) 0.7 1.0 := by
    apply scoreLowerIsBetter_anti (by norm_num)
    rw [safeDiv, safeDiv, if_neg h0.ne', if_neg h0j.ne']
    exact div_le_div_of_nonneg_left (le_max_left 0 e) h0 hij
  have hsav :
      scoreHigherIsBetter (safeDiv (max 0 (max 0 (i - max 0 e))) i) 0.05 0.2 ≤
        scoreHigherIsBetter (safeDiv (max 0 (max 0 (j - max 0 e))) j) 0.05 0.2 :=
    scoreHigherIsBetter_mono (by norm_num) (derived_savings_mono h0 hij)
  linarith

theorem single_month_income_monotonicity_witness :
    (0:ℚ) < 100 ∧ (100:ℚ) ≤ 200 ∧
    optScore (calculateFinancialHealth
      [{ month := "2026-01", income := 100, expenses := 50, savings := none,
         discretionarySpending := none }] defaultOptions) ≤
    optScore (calculateFinancialHealth
      [{ month := "2026-01", income := 200, expenses := 50, savings := none,
         discretionarySpending := none }] defaultOptions) :=
  ⟨by norm_num, by norm_num,
    single_month_income_monotonicity "2026-01" none 50 100 200 defaultOptions
      (by norm_num) (by norm_num)⟩

/-! ### Claims about annual depreciation -/

/-- C7 (counterexample): the amount applied in a run is not always
cost × rate.  With cost 100, rate 0.3 and accumulated depreciation 90, the
run applies 10 (the remaining book value), not 30. -/
theorem depreciation_flat_amount_counterexample :
    depreciateAsset { cost := 100, rate := 0.3, accumulatedDepreciation := 90 } ∈
      runAnnualDepreciation [{ cost := 100, rate := 0.3, accumulatedDepreciation := 90 }] ∧
    (depreciateAsset { cost := 100, rate := 0.3, accumulatedDepreciation := 90 }).applied ≠
      (100 : ℚ) * 0.3 := by
  constructor
  · simp [runAnnualDepreciation]
  · norm_num [depreciateAsset]

/-- C7 (amended): each run applies straight-line depreciation to every
asset with the amount capped at the remaining book value: the applied
amount is `min (max 0 (cost × rate)) (max 0 (cost − acc))`; in particular,
whenever cost × rate is nonnegative and no larger than the remaining book
value, the applied amount is exactly cost × rate and the accumulated
depreciation grows by it. -/
theorem depreciation_capped_straight_line (assets : List AssetDep) (a : AssetDep)
    (ha : a ∈ assets) (h1 : 0 ≤ a.cost * a.rate)
    (h2 : a.cost * a.rate ≤ a.cost - a.accumulatedDepreciation) :
    depreciateAsset a ∈ runAnnualDepreciation assets ∧
    (depreciateAsset a).applied = a.cost * a.rate ∧
    (depreciateAsset a).newAcc = a.accumulatedDepreciation + a.cost * a.rate := by
  have happ : (depreciateAsset a).applied = a.cost * a.rate := by
    rw [show (depreciateAsset a).applied =
        min (max 0 (a.cost * a.rate)) (max 0 (a.cost - a.accumulatedDepreciation)) from rfl]
    rw [max_eq_right h1]
    exact min_eq_left (le_trans h2 (le_max_right 0 _))
  refine ⟨List.mem_map_of_mem _ ha, happ, ?_⟩
  rw [show (depreciateAsset a).newAcc =
      a.accumulatedDepreciation + (depreciateAsset a).applied from rfl, happ]

theorem depreciation_capped_straight_line_witness :
    depreciateAsset { cost := 100, rate := 0.1, accumulatedDepreciation := 20 } ∈
      runAnnualDepreciation [{ cost := 100, rate := 0.1, accumulatedDepreciation := 20 }] ∧
    (depreciateAsset { cost := 100, rate := 0.1, accumulatedDepreciation := 20 }).applied =
      (100 : ℚ) * 0.1 ∧
    (depreciateAsset { cost := 100, rate := 0.1, accumulatedDepreciation := 20 }).newAcc =
      20 + (100 : ℚ) * 0.1 :=
  depreciation_capped_straight_line _ _ (by simp [runAnnualDepreciation])
    (by norm_num) (by norm_num)

/-- C9: when an asset's accumulated depreciation does not exceed its cost,
one depreciation step keeps the NBV bookkeeping consistent: the new NBV is
cost minus the new accumulated depreciation, the new accumulated
depreciation stays at most the cost, the new NBV is nonnegative, and the
applied amount is capped at the remaining book value. -/
theorem depreciation_nbv_invariant (a : AssetDep)
    (h : a.accumulatedDepreciation ≤ a.cost) :
    (depreciateAsset a).newNbv = a.cost - (depreciateAsset a).newAcc ∧
    (depreciateAsset a).newAcc ≤ a.cost ∧
    0 ≤ (depreciateAsset a).newNbv ∧
    (depreciateAsset a).applied ≤ a.cost - a.accumulatedDepreciation := by
  have happ0 : 0 ≤ (depreciateAsset a).applied := by
    rw [show (depreciateAsset a).applied =
        min (max 0 (a.cost * a.rate)) (max 0 (a.cost - a.accumulatedDepreciation)) from rfl]
    exact le_min (le_max_left 0 _) (le_max_left 0 _)
  have happle : (depreciateAsset a).applied ≤ a.cost - a.accumulatedDepreciation := by
    rw [show (depreciateAsset a).applied =
        min (max 0 (a.cost * a.rate)) (max 0 (a.cost - a.accumulatedDepreciation)) from rfl]
    rw [max_eq_right (by linarith : (0:ℚ) ≤ a.cost - a.accumulatedDepreciation)]
    exact min_le_right _ _
  have hacceq : (depreciateAsset a).newAcc =
      a.accumulatedDepreciation + (depreciateAsset a).applied := rfl
  have hacc : (depreciateAsset a).newAcc ≤ a.cost := by
    rw [hacceq]
    linarith
  have hnbv : (depreciateAsset a).newNbv = a.cost - (depreciateAsset a).newAcc := by
    rw [show (depreciateAsset a).newNbv =
        max 0 (a.cost - (depreciateAsset a).newAcc) from rfl]
    rw [max_eq_right (by linarith)]
  refine ⟨hnbv, hacc, ?_, happle⟩
  rw [hnbv]
  linarith

theorem depreciation_nbv_invariant_witness :
    (20 : ℚ) ≤ 100 ∧
    ((depreciateAsset { cost := 100, rate := 0.1, accumulatedDepreciation := 20 }).newNbv =
        (100 : ℚ) -
          (depreciateAsset { cost := 100, rate := 0.1, accumulatedDepreciation := 20 }).newAcc ∧
      (depreciateAsset { cost := 100, rate := 0.1, accumulatedDepreciation := 20 }).newAcc ≤
        (100 : ℚ) ∧
      0 ≤ (depreciateAsset { cost := 100, rate := 0.1, accumulatedDepreciation := 20 }).newNbv ∧
      (depreciateAsset { cost := 100, rate := 0.1, accumulatedDepreciation := 20 }).applied ≤
        (100 : ℚ) - 20) :=
  ⟨by norm_num, depreciation_nbv_invariant _ (by norm_num)⟩

/-! ### Claims about computeSmartAlerts -/

/-- C8 (counterexample): the alert list is not a function of the
transaction list, selected month and currency alone — the `createdAt`
field reads the clock, so two invocations with identical arguments but
different invocation instants return different lists. -/
theorem smart_alerts_clock_counterexample :
    computeSmartAlerts "2026-01-01T00:00:00.000Z" [oneExpenseTx] none "" ≠
      computeSmartAlerts "2026-01-02T00:00:00.000Z" [oneExpenseTx] none "" := by
  intro h
  have h2 := congrArg (List.map SmartAlert.createdAt) h
  rw [show (computeSmartAlerts "2026-01-01T00:00:00.000Z" [oneExpenseTx] none "").map
      SmartAlert.createdAt = ["2026-01-01T00:00:00.000Z", "2026-01-01T00:00:00.000Z"] from by
    norm_num [computeSmartAlerts, oneExpenseTx, List.filter, List.sum_cons, List.sum_nil,
      show decide (TxType.expense = TxType.income) = false from rfl,
      show decide (TxType.expense = TxType.expense) = true from rfl]] at h2
  rw [show (computeSmartAlerts "2026-01-02T00:00:00.000Z" [oneExpenseTx] none "").map
      SmartAlert.createdAt = ["2026-01-02T00:00:00.000Z", "2026-01-02T00:00:00.000Z"] from by
    norm_num [computeSmartAlerts, oneExpenseTx, List.filter, List.sum_cons, List.sum_nil,
      show decide (TxType.expense = TxType.income) = false from rfl,
      show decide (TxType.expense = TxType.expense) = true from rfl]] at h2
  exact absurd h2 (by decide)

/-- C8 (amended): `computeSmartAlerts` is deterministic once the clock
reading is fixed alongside its arguments: every field except `createdAt`
is a function of the transactions, the selected month and the currency
alone, and every emitted alert's `createdAt` equals the invocation
instant. -/
theorem smart_alerts_deterministic_mod_clock (now now' : String) (txs : List Tx)
    (sel : Option DateYM) (cur : String) :
    (computeSmartAlerts now txs sel cur).map eraseCreatedAt =
      (computeSmartAlerts now' txs sel cur).map eraseCreatedAt ∧
    ∀ a ∈ computeSmartAlerts now txs sel cur, a.createdAt = now := by
  constructor
  · unfold computeSmartAlerts
    by_cases hlen : txs.length = 0
    · rw [if_pos hlen, if_pos hlen]
    · rw [if_neg hlen, if_neg hlen]
      dsimp only
      split_ifs <;> simp [eraseCreatedAt]
  · intro a ha
    unfold computeSmartAlerts at ha
    by_cases hlen : txs.length = 0
    · rw [if_pos hlen] at ha
      simp at ha
    · rw [if_neg hlen] at ha
      dsimp only at ha
      rw [List.mem_append, List.mem_append] at ha
      rcases ha with (ha | ha) | ha
      · simp at ha
        subst ha
        rfl
      · split_ifs at ha <;> simp at ha
        subst ha
        rfl
      · split_ifs at ha <;> simp at ha
        subst ha
        rfl

/-! ### Claims about the AI endpoints -/

/-- C3 (counterexample): the follow-up endpoint enforces no store-backed
daily limit — a valid request from a client whose daily count is already 6
(above the limit of 5) is still served by calling the generative-AI API
with status 200, not rejected with 429. -/
theorem followup_rate_limit_counterexample :
    DAILY_AI_LIMIT < 6 ∧
    followupPOST true true 6 = { status := 200, calledAI := true } := by
  constructor
  · norm_num [DAILY_AI_LIMIT]
  · rfl

/-- C3 (amended): only the summary endpoint enforces the daily limit.  With
the key-value store configured, a valid summary request whose incremented
daily count exceeds `DAILY_AI_LIMIT` is rejected with 429 and the AI is not
called; the follow-up endpoint's outcome is independent of the stored
count. -/
theorem summary_rate_limit_only (b k : Bool) (n m : ℕ) (hn : DAILY_AI_LIMIT < n) :
    (summaryPOST true true true n).status = 429 ∧
    (summaryPOST true true true n).calledAI = false ∧
    followupPOST b k n = followupPOST b k m := by
  refine ⟨?_, ?_, rfl⟩
  · unfold summaryPOST
    rw [if_neg (by simp), if_neg (by simp), if_pos ⟨rfl, hn⟩]
  · unfold summaryPOST
    rw [if_neg (by simp), if_neg (by simp), if_pos ⟨rfl, hn⟩]

theorem summary_rate_limit_only_witness :
    DAILY_AI_LIMIT < 6 ∧
    (summaryPOST true true true 6).status = 429 ∧
    (summaryPOST true true true 6).calledAI = false ∧
    followupPOST true true 6 = followupPOST true true 0 := by
  have h := summary_rate_limit_only true true 6 0 (by norm_num [DAILY_AI_LIMIT])
  exact ⟨by norm_num [DAILY_AI_LIMIT], h.1, h.2.1, h.2.2⟩

end Finora
